import Mathlib

/-!
Shallow embedding of `src/plugins/uartdmx/UartDmxThread.cpp` from the ola
repository: the UART DMX output-pacing thread.  The embedding follows the
source line by line: the constructor, `Stop`, the destructor, `WriteDMX`,
`CheckTimeGranularity`, and the body of `Run` (widget setup, counter reset,
and the pacing loop with its goto-based early exit and the housekeeping /
report block).  Widget calls (`SetBreak`, `Write`), `usleep` calls and the
report printout are recorded in a trace of events, one event constructor per
call site in the source; the outcomes of the fallible widget calls and the
clock reading of each iteration are supplied by a `CycleEnv` oracle.
-/

namespace UartDmx

/-- Sleep-granularity classification, the `m_granularity` member
(`UNKNOWN` at construction, set once by `CheckTimeGranularity`). -/
inductive Granularity where
  | UNKNOWN
  | GOOD
  | BAD
deriving DecidableEq, Repr

/-- Timing parameters given to the constructor: `breakt` (break time) and
`malft` (mark-after-last-frame time, the frame-period floor), microseconds. -/
structure Config where
  breakt : Nat
  malft : Nat
deriving DecidableEq, Repr

/-- Modelled from the spec: the fixed mark-after-break duration `DMX_MAB`
is a constant declared in `UartDmxThread.h`, which is not under `src/`;
the spec describes it only as a fixed constant ("mark-after-break duration
(fixed constant)").  The claims depend on its identity as the MAB sleep
duration, not on its numeric value. -/
def DMX_MAB : Nat := 16

/-- How often `Run` prints the counter summary: `m_printinterval`, built as
`TimeInterval(1e6)` microseconds in the source. -/
def printinterval : Int := 1000000

/-- State of one `UartDmxThread` object together with the locals of `Run`:
`m_granularity`, `m_term`, the published buffer `m_buffer`, the working
buffer (local `buffer` of `Run`), the four counters and `lastprint`.
Buffers are byte sequences; timestamps are microsecond counts. -/
structure ThreadState where
  granularity : Granularity
  term : Bool
  published : List Nat
  working : List Nat
  errBreakstart : Nat
  errBreakstop : Nat
  errWrite : Nat
  frames : Nat
  lastprint : Int
deriving DecidableEq, Repr

/-- The constructor `UartDmxThread::UartDmxThread`: `m_granularity` starts
`UNKNOWN` and `m_term` starts `false`; the remaining fields model locals of
`Run` and are initialised by `runInit` before the loop. -/
def mkThread : ThreadState :=
  { granularity := Granularity.UNKNOWN
    term := false
    published := []
    working := []
    errBreakstart := 0
    errBreakstop := 0
    errWrite := 0
    frames := 0
    lastprint := 0 }

/-- `UartDmxThread::Stop`: takes `m_term_mutex` and sets `m_term = true`,
then joins.  The join outcome does not touch the state. -/
def stop (s : ThreadState) : ThreadState :=
  { s with term := true }

/-- The destructor `UartDmxThread::~UartDmxThread` calls `Stop()`. -/
def destroy (s : ThreadState) : ThreadState :=
  stop s

/-- `UartDmxThread::WriteDMX`: under `m_buffer_mutex`, `m_buffer.Set(buffer)`
copies the argument into the published buffer; then `return true`. -/
def writeDMX (s : ThreadState) (buffer : List Nat) : ThreadState × Bool :=
  ({ s with published := buffer }, true)

/-- Trace events, one constructor per call site in `Run`:
the two `SetBreak` calls with their outcome, the three `usleep` call sites
(break hold, MAB hold, frame sleep) with the requested duration, the
`Write` call with outcome and transmitted bytes, and the `OLA_INFO`
report with the four counter values it prints. -/
inductive Event where
  | setBreakOn (ok : Bool)
  | breakSleep (us : Nat)
  | setBreakOff (ok : Bool)
  | mabSleep (us : Nat)
  | writeFrame (ok : Bool) (data : List Nat)
  | frameSleep (us : Nat)
  | report (frames errBreakstart errBreakstop errWrite : Nat)
deriving DecidableEq, Repr

/-- Oracle for one loop iteration: the boolean results of
`SetBreak(true)`, `SetBreak(false)` and `Write(buffer)`, and the value the
clock returns at `clock.CurrentTime(&now)` in the housekeeping block. -/
structure CycleEnv where
  sbOn : Bool
  sbOff : Bool
  wr : Bool
  now : Int
deriving DecidableEq, Repr

/-- One pass through the pacing steps of the loop body (source lines
105-133): copy the published buffer into the working buffer under
`m_buffer_mutex`; `SetBreak(true)` (on failure increment `err_breakstart`
and `goto framesleep`); if granularity is `GOOD`, `usleep(m_breakt)`;
`SetBreak(false)` (on failure increment `err_breakstop` and
`goto framesleep`); if `GOOD`, `usleep(DMX_MAB)`; `Write(buffer)` (on
failure increment `err_write`); `framesleep:` `usleep(m_malft)`. -/
def paceCycle (cfg : Config) (env : CycleEnv) (s : ThreadState) :
    ThreadState × List Event :=
  let s := { s with working := s.published }
  if !env.sbOn then
    ({ s with errBreakstart := s.errBreakstart + 1 },
      [Event.setBreakOn false, Event.frameSleep cfg.malft])
  else
    let evs1 :=
      if s.granularity = Granularity.GOOD then
        [Event.setBreakOn true, Event.breakSleep cfg.breakt]
      else
        [Event.setBreakOn true]
    if !env.sbOff then
      ({ s with errBreakstop := s.errBreakstop + 1 },
        evs1 ++ [Event.setBreakOff false, Event.frameSleep cfg.malft])
    else
      let evs2 :=
        if s.granularity = Granularity.GOOD then
          evs1 ++ [Event.setBreakOff true, Event.mabSleep DMX_MAB]
        else
          evs1 ++ [Event.setBreakOff true]
      if !env.wr then
        ({ s with errWrite := s.errWrite + 1 },
          evs2 ++ [Event.writeFrame false s.working, Event.frameSleep cfg.malft])
      else
        (s, evs2 ++ [Event.writeFrame true s.working, Event.frameSleep cfg.malft])

/-- The housekeeping block of the loop body (source lines 137-153):
`clock.CurrentTime(&now)`; `since_lastprint = now - lastprint`; if
`since_lastprint > m_printinterval`, set `lastprint = now`, print the four
counters with `OLA_INFO`, and clear all four counters; otherwise nothing. -/
def housekeeping (env : CycleEnv) (s : ThreadState) :
    ThreadState × List Event :=
  if env.now - s.lastprint > printinterval then
    ({ s with
        lastprint := env.now
        errBreakstart := 0
        errBreakstop := 0
        errWrite := 0
        frames := 0 },
      [Event.report s.frames s.errBreakstart s.errBreakstop s.errWrite])
  else
    (s, [])

/-- One full iteration of the `while (1)` body after the termination check:
the pacing steps followed by the housekeeping block. -/
def runCycle (cfg : Config) (env : CycleEnv) (s : ThreadState) :
    ThreadState × List Event :=
  let p := paceCycle cfg env s
  let h := housekeeping env p.1
  (h.1, p.2 ++ h.2)

/-- The `while (1)` loop of `Run`: each iteration first reads `m_term`
under `m_term_mutex` and exits if set, otherwise executes one `runCycle`.
The oracle list supplies one `CycleEnv` per iteration; the loop also stops
when the oracle list is exhausted (a finite observation window). -/
def runLoop (cfg : Config) : List CycleEnv → ThreadState →
    ThreadState × List Event
  | [], s => (s, [])
  | env :: rest, s =>
    if s.term then
      (s, [])
    else
      let c := runCycle cfg env s
      let r := runLoop cfg rest c.1
      (r.1, c.2 ++ r.2)

/-- `UartDmxThread::CheckTimeGranularity` (source lines 162-178): record
`ts1`, `usleep(1000)`, record `ts2`; with `threshold = 3`, classify the
granularity as `BAD` when `(ts2 - ts1).InMilliSeconds() > threshold` and
`GOOD` otherwise.  The elapsed time is supplied by the clock oracle as a
whole-millisecond count. -/
def checkTimeGranularity (elapsedMs : Int) : Granularity :=
  if elapsedMs > 3 then Granularity.BAD else Granularity.GOOD

/-- The widget-setup step of `Run` (source lines 88-89):
`if (!m_widget->IsOpen()) m_widget->SetupOutput();`.  Given the result of
`IsOpen()`, returns whether `SetupOutput()` is invoked. -/
def setupOutputCalled (isOpen : Bool) : Bool :=
  !isOpen

/-- The initialisation in `Run` before the loop (source lines 91-96): zero
the four counters and set `lastprint` to the current time; the working
buffer is the default-constructed local `buffer`. -/
def runInit (now0 : Int) (s : ThreadState) : ThreadState :=
  { s with
      working := []
      errBreakstart := 0
      errBreakstop := 0
      errWrite := 0
      frames := 0
      lastprint := now0 }

/-- The whole of `UartDmxThread::Run`: `CheckTimeGranularity()` (with the
calibration sleep's observed elapsed milliseconds supplied by the oracle),
widget setup, counter initialisation, then the pacing loop. -/
def run (cfg : Config) (elapsedMs : Int) (now0 : Int)
    (envs : List CycleEnv) (s : ThreadState) : ThreadState × List Event :=
  let s := { s with granularity := checkTimeGranularity elapsedMs }
  runLoop cfg envs (runInit now0 s)

/-- Operations on the buffer exchange, for interleavings of the producer
(`WriteDMX`) and the pacer's copy-out at the start of a cycle.  Each
operation is one whole critical section of the corresponding mutex. -/
inductive ExOp where
  | publish (f : List Nat)
  | acquire
deriving DecidableEq, Repr

/-- Execute a sequence of buffer-exchange operations: `publish f` is
`WriteDMX(f)` (copies `f` into the published buffer under `m_buffer_mutex`);
`acquire` is the pacer's `buffer.Set(m_buffer)` under the same mutex. -/
def execOps : List ExOp → ThreadState → ThreadState
  | [], s => s
  | ExOp.publish f :: rest, s => execOps rest (writeDMX s f).1
  | ExOp.acquire :: rest, s => execOps rest { s with working := s.published }

/-! ## Helper lemmas -/

theorem paceCycle_granularity (cfg : Config) (env : CycleEnv) (s : ThreadState) :
    (paceCycle cfg env s).1.granularity = s.granularity := by
  unfold paceCycle
  dsimp only
  split_ifs <;> rfl

theorem housekeeping_granularity (env : CycleEnv) (s : ThreadState) :
    (housekeeping env s).1.granularity = s.granularity := by
  unfold housekeeping
  split_ifs <;> rfl

theorem runCycle_granularity (cfg : Config) (env : CycleEnv) (s : ThreadState) :
    (runCycle cfg env s).1.granularity = s.granularity := by
  unfold runCycle
  rw [housekeeping_granularity, paceCycle_granularity]

theorem runLoop_granularity (cfg : Config) (envs : List CycleEnv) (s : ThreadState) :
    (runLoop cfg envs s).1.granularity = s.granularity := by
  induction envs generalizing s with
  | nil => rfl
  | cons env rest ih =>
    unfold runLoop
    split_ifs
    · rfl
    · dsimp only
      rw [ih, runCycle_granularity]

theorem paceCycle_term (cfg : Config) (env : CycleEnv) (s : ThreadState) :
    (paceCycle cfg env s).1.term = s.term := by
  unfold paceCycle
  dsimp only
  split_ifs <;> rfl

theorem housekeeping_term (env : CycleEnv) (s : ThreadState) :
    (housekeeping env s).1.term = s.term := by
  unfold housekeeping
  split_ifs <;> rfl

theorem getLastD_cons_eq {α : Type} (a d : α) (l : List α) :
    (a :: l).getLastD d = l.getLastD a := by
  cases l <;> rfl

/-! ## Claim theorems -/

/-- C1: the claim says the frames-completed counter increments by exactly
one after the FRAME_SLEEP step of every cycle; the code never increments
`frames` anywhere.  Evaluating a full cycle in which every widget call
succeeds and no report fires, starting from `frames = 0`, leaves the
counter at `0` instead of `1`. -/
theorem frames_counter_never_incremented :
    (runCycle ⟨100, 22754⟩ ⟨true, true, true, 0⟩ mkThread).1.frames = 0 ∧
    (paceCycle ⟨100, 22754⟩ ⟨true, true, true, 0⟩ mkThread).1.frames =
      mkThread.frames := by
  constructor <;> rfl

/-- C2: in one pass of the pacing steps, a `SetBreak(true)` failure
increments exactly `err_breakstart`, a `SetBreak(false)` failure (after a
successful break start) increments exactly `err_breakstop`, and a `Write`
failure (after both break calls succeeded) increments exactly `err_write`;
in each case the other two error counters are unchanged, and in every case
the error counters together grow by at most one. -/
theorem error_counter_per_failure (cfg : Config) (env : CycleEnv)
    (s : ThreadState) :
    (env.sbOn = false →
      (paceCycle cfg env s).1.errBreakstart = s.errBreakstart + 1 ∧
      (paceCycle cfg env s).1.errBreakstop = s.errBreakstop ∧
      (paceCycle cfg env s).1.errWrite = s.errWrite) ∧
    (env.sbOn = true → env.sbOff = false →
      (paceCycle cfg env s).1.errBreakstop = s.errBreakstop + 1 ∧
      (paceCycle cfg env s).1.errBreakstart = s.errBreakstart ∧
      (paceCycle cfg env s).1.errWrite = s.errWrite) ∧
    (env.sbOn = true → env.sbOff = true → env.wr = false →
      (paceCycle cfg env s).1.errWrite = s.errWrite + 1 ∧
      (paceCycle cfg env s).1.errBreakstart = s.errBreakstart ∧
      (paceCycle cfg env s).1.errBreakstop = s.errBreakstop) ∧
    (paceCycle cfg env s).1.errBreakstart + (paceCycle cfg env s).1.errBreakstop +
        (paceCycle cfg env s).1.errWrite ≤
      s.errBreakstart + s.errBreakstop + s.errWrite + 1 := by
  obtain ⟨sbOn, sbOff, wr, now⟩ := env
  cases sbOn <;> cases sbOff <;> cases wr <;>
    simp [paceCycle] <;> omega

/-- Witness for `error_counter_per_failure` at a concrete failing
`SetBreak(true)` call. -/
theorem error_counter_per_failure_w :
    (paceCycle ⟨88, 22754⟩ ⟨false, true, true, 0⟩ mkThread).1.errBreakstart =
      mkThread.errBreakstart + 1 ∧
    (paceCycle ⟨88, 22754⟩ ⟨false, true, true, 0⟩ mkThread).1.errBreakstop =
      mkThread.errBreakstop ∧
    (paceCycle ⟨88, 22754⟩ ⟨false, true, true, 0⟩ mkThread).1.errWrite =
      mkThread.errWrite :=
  (error_counter_per_failure ⟨88, 22754⟩ ⟨false, true, true, 0⟩ mkThread).1 rfl

/-- C3: the `framesleep` label sits after every early exit, so the
`usleep(m_malft)` frame sleep occurs in the trace of every cycle, whatever
the widget-call outcomes and the granularity state. -/
theorem frame_sleep_never_skipped (cfg : Config) (env : CycleEnv)
    (s : ThreadState) :
    Event.frameSleep cfg.malft ∈ (runCycle cfg env s).2 := by
  obtain ⟨sbOn, sbOff, wr, now⟩ := env
  obtain ⟨g, term, pub, work, e1, e2, e3, fr, lp⟩ := s
  cases sbOn <;> cases sbOff <;> cases wr <;> cases g <;>
    simp [runCycle, paceCycle]

/-- C4: `Run` calls `CheckTimeGranularity` once before the loop; the
classification is `BAD` exactly when the observed elapsed milliseconds of
the 1 ms calibration sleep exceed the threshold 3, `GOOD` otherwise, and no
later cycle of the loop ever changes the granularity state. -/
theorem granularity_calibrated_once (cfg : Config) (elapsedMs now0 : Int)
    (envs : List CycleEnv) (s : ThreadState) :
    (run cfg elapsedMs now0 envs s).1.granularity =
      checkTimeGranularity elapsedMs ∧
    (checkTimeGranularity elapsedMs = Granularity.BAD ↔ elapsedMs > 3) := by
  constructor
  · unfold run
    rw [runLoop_granularity]
    rfl
  · unfold checkTimeGranularity
    split_ifs with h <;> simp [h]

/-- C5: when the granularity state is `GOOD`, the cycle sleeps for the
configured break time after a successful `SetBreak(true)` and for the fixed
`DMX_MAB` time after a successful `SetBreak(false)`; when it is `BAD`,
neither the break-hold nor the MAB-hold sleep appears in the cycle's trace
for any duration. -/
theorem break_mab_sleep_iff_good (cfg : Config) (env : CycleEnv)
    (s : ThreadState) :
    (s.granularity = Granularity.GOOD → env.sbOn = true →
      Event.breakSleep cfg.breakt ∈ (paceCycle cfg env s).2) ∧
    (s.granularity = Granularity.GOOD → env.sbOn = true → env.sbOff = true →
      Event.mabSleep DMX_MAB ∈ (paceCycle cfg env s).2) ∧
    (s.granularity = Granularity.BAD → ∀ us,
      Event.breakSleep us ∉ (paceCycle cfg env s).2 ∧
      Event.mabSleep us ∉ (paceCycle cfg env s).2) := by
  obtain ⟨sbOn, sbOff, wr, now⟩ := env
  obtain ⟨g, term, pub, work, e1, e2, e3, fr, lp⟩ := s
  cases sbOn <;> cases sbOff <;> cases wr <;> cases g <;>
    simp [paceCycle]

/-- Witness for `break_mab_sleep_iff_good` at a concrete `GOOD` state with
both break calls succeeding. -/
theorem break_mab_sleep_iff_good_w :
    Event.breakSleep 88 ∈
      (paceCycle ⟨88, 22754⟩ ⟨true, true, true, 0⟩
        { mkThread with granularity := Granularity.GOOD }).2 :=
  (break_mab_sleep_iff_good ⟨88, 22754⟩ ⟨true, true, true, 0⟩
    { mkThread with granularity := Granularity.GOOD }).1 rfl rfl

/-- C6: `WriteDMX` copies its argument into the published buffer and
returns `true`, for every frame argument and every state. -/
theorem writeDMX_copies_and_succeeds (s : ThreadState) (b : List Nat) :
    (writeDMX s b).2 = true ∧ (writeDMX s b).1.published = b :=
  ⟨rfl, rfl⟩

/-- C7: for any burst of publishes followed by the pacer's copy-out, the
working buffer afterwards is byte-for-byte the last published frame (or
the previously published buffer when the burst is empty) — never an
intermediate frame and never a mix; and within a cycle the pacer's working
buffer is exactly the published buffer it copied at the cycle's start. -/
theorem acquire_gets_latest_publish (s : ThreadState) (fs : List (List Nat))
    (cfg : Config) (env : CycleEnv) :
    (execOps (fs.map ExOp.publish ++ [ExOp.acquire]) s).working =
      fs.getLastD s.published ∧
    (paceCycle cfg env s).1.working = s.published := by
  constructor
  · induction fs generalizing s with
    | nil => rfl
    | cons f rest ih =>
      rw [List.map_cons, List.cons_append, getLastD_cons_eq]
      exact ih { s with published := f }
  · obtain ⟨sbOn, sbOff, wr, now⟩ := env
    cases sbOn <;> cases sbOff <;> cases wr <;> simp [paceCycle]

/-- C8: the housekeeping block flushes a report carrying the four counter
values, zeroes all four counters and sets `lastprint` to the current time
exactly when the time since the last report strictly exceeds the 1-second
print interval; otherwise it emits nothing and leaves the state untouched. -/
theorem report_iff_interval_exceeded (env : CycleEnv) (s : ThreadState) :
    (env.now - s.lastprint > printinterval →
      (housekeeping env s).2 =
        [Event.report s.frames s.errBreakstart s.errBreakstop s.errWrite] ∧
      (housekeeping env s).1.errBreakstart = 0 ∧
      (housekeeping env s).1.errBreakstop = 0 ∧
      (housekeeping env s).1.errWrite = 0 ∧
      (housekeeping env s).1.frames = 0 ∧
      (housekeeping env s).1.lastprint = env.now) ∧
    (¬ env.now - s.lastprint > printinterval →
      (housekeeping env s).2 = [] ∧ (housekeeping env s).1 = s) := by
  constructor <;> intro h <;> simp [housekeeping, h]

/-- Witness for `report_iff_interval_exceeded` where the interval is
exceeded and where it is not. -/
theorem report_iff_interval_exceeded_w :
    (housekeeping ⟨true, true, true, 2000001⟩ mkThread).2 =
      [Event.report mkThread.frames mkThread.errBreakstart
        mkThread.errBreakstop mkThread.errWrite] ∧
    (housekeeping ⟨true, true, true, 5⟩ mkThread).1 = mkThread :=
  ⟨((report_iff_interval_exceeded ⟨true, true, true, 2000001⟩ mkThread).1
      (by decide)).1,
   ((report_iff_interval_exceeded ⟨true, true, true, 5⟩ mkThread).2
      (by decide)).2⟩

/-- C9: the termination flag starts `false` at construction, `Stop` (and
the destructor through it) sets it `true`, neither `WriteDMX` nor a loop
cycle ever writes it, and a second `Stop` leaves the whole state exactly
as the first left it. -/
theorem term_flag_monotone (cfg : Config) (env : CycleEnv)
    (s t : ThreadState) (b : List Nat) :
    mkThread.term = false ∧
    (stop s).term = true ∧
    (destroy s).term = true ∧
    (writeDMX t b).1.term = t.term ∧
    (runCycle cfg env s).1.term = s.term ∧
    stop (stop s) = stop s := by
  refine ⟨rfl, rfl, rfl, rfl, ?_, rfl⟩
  unfold runCycle
  rw [housekeeping_term, paceCycle_term]

/-- C10: at thread start `Run` invokes the widget's `SetupOutput` exactly
when `IsOpen` returned `false`. -/
theorem setup_output_iff_not_open (isOpen : Bool) :
    setupOutputCalled isOpen = true ↔ isOpen = false := by
  cases isOpen <;> simp [setupOutputCalled]

end UartDmx
